import Mathlib

/-!
Verification of the MiROS round-robin scheduler and stack-frame builder.

The definitions below are a shallow embedding of the C sources
`src/ThirdParty/MiROS/Src/round_robin.c` and
`src/ThirdParty/MiROS/Src/miros.c`:

* Task pointers (`Task_t *`) are modelled as natural numbers; a queue slot
  holds `Option Nat`, with `none` standing for `NULL`.
* The module-static scheduler state (`Sched_TaskQueue`, `Sched_AddedTasks`,
  `Sched_CurrentTaskIndex`) becomes an explicit `SchedState` value threaded
  through the operations.
* A fatal `assert_param` failure (which halts the system, leaving the static
  state untouched) is modelled by the operation returning `none`; mutations
  appear only under `some`, mirroring the fact that in the C source every
  assertion precedes every mutation.
* Byte-addressed 32-bit memory is `Mem := Nat → Nat`, each address holding
  one 32-bit word; stores truncate the value modulo `2^32`.
-/

/-- Capacity of the task queue, `MIROS_NUM_TASKS` in miros.h. -/
def MIROS_NUM_TASKS : Nat := 32

/-- The scheduler's static state in round_robin.c: the task queue (slot
contents, `none` = `NULL`), the number of added tasks (tail), and the
current dispatch cursor (head). -/
structure SchedState where
  taskQueue : Nat → Option Nat
  addedTasks : Nat
  currentTaskIndex : Nat

/-- State of the static variables at program start (C statics are
zero-initialized: all queue slots `NULL`, counters 0). -/
def bootState : SchedState :=
  { taskQueue := fun _ => none, addedTasks := 0, currentTaskIndex := 0 }

/-- Embedding of `Scheduler_Initialize` (round_robin.c, lines 39-45): nulls
the `MIROS_NUM_TASKS` queue slots and zeroes `Sched_AddedTasks`.  The C
function does not touch `Sched_CurrentTaskIndex`, so neither does this one. -/
def Scheduler_Initialize (s : SchedState) : SchedState :=
  { taskQueue := fun i => if i < MIROS_NUM_TASKS then none else s.taskQueue i,
    addedTasks := 0,
    currentTaskIndex := s.currentTaskIndex }

/-- Embedding of `Scheduler_AddTask` (round_robin.c, lines 47-54):
asserts `Sched_AddedTasks < MIROS_NUM_TASKS` (`none` = fatal assertion,
nothing mutated), then writes the task pointer at the tail slot and
increments the count. -/
def Scheduler_AddTask (s : SchedState) (task : Nat) : Option SchedState :=
  if s.addedTasks < MIROS_NUM_TASKS then
    some { taskQueue := fun i => if i = s.addedTasks then some task else s.taskQueue i,
           addedTasks := s.addedTasks + 1,
           currentTaskIndex := s.currentTaskIndex }
  else
    none

/-- Embedding of `Scheduler_GetTask` (round_robin.c, lines 56-70):
asserts `Sched_AddedTasks > 0` (`none` = fatal assertion), reads the slot
at the cursor, then increments the cursor, wrapping to 0 when it reaches
`Sched_AddedTasks`.  Returns the read slot (possibly `NULL`) and the new
state. -/
def Scheduler_GetTask (s : SchedState) : Option (Option Nat × SchedState) :=
  if 0 < s.addedTasks then
    some (s.taskQueue s.currentTaskIndex,
      { s with currentTaskIndex :=
          if s.currentTaskIndex + 1 = s.addedTasks then 0
          else s.currentTaskIndex + 1 })
  else
    none

/-- The scheduler state right after boot followed by initialization. -/
def freshSched : SchedState := Scheduler_Initialize bootState

/-- Register a list of tasks in order, propagating a fatal assertion. -/
def addAll (s : SchedState) : List Nat → Option SchedState
  | [] => some s
  | t :: rest => (Scheduler_AddTask s t).bind (fun s2 => addAll s2 rest)

/-- Call `Scheduler_GetTask` a given number of times, discarding the returned
task pointers and propagating a fatal assertion. -/
def iterGet (s : SchedState) : Nat → Option SchedState
  | 0 => some s
  | n + 1 => (Scheduler_GetTask s).bind (fun p => iterGet p.2 n)

/-- A scheduler operation: register a task or request the next task. -/
inductive SchedOp where
  | add (t : Nat)
  | get

/-- Run a sequence of scheduler operations, propagating fatal assertions. -/
def runOps (s : SchedState) : List SchedOp → Option SchedState
  | [] => some s
  | SchedOp.add t :: rest => (Scheduler_AddTask s t).bind (fun s2 => runOps s2 rest)
  | SchedOp.get :: rest => (Scheduler_GetTask s).bind (fun p => runOps p.2 rest)

/-- Characterization of a successful `Scheduler_GetTask`. -/
theorem getTask_eq (s : SchedState) (h0 : 0 < s.addedTasks) :
    Scheduler_GetTask s =
      some (s.taskQueue s.currentTaskIndex,
        { s with currentTaskIndex :=
            if s.currentTaskIndex + 1 = s.addedTasks then 0
            else s.currentTaskIndex + 1 }) := by
  simp [Scheduler_GetTask, h0]

/-- The cursor update in `Scheduler_GetTask` is addition by one modulo the
number of registered tasks, provided the cursor was in range. -/
theorem cursor_step_mod (c N : Nat) (h : c < N) :
    (if c + 1 = N then 0 else c + 1) = (c + 1) % N := by
  by_cases hc : c + 1 = N
  · simp [hc, Nat.mod_self]
  · rw [if_neg hc, Nat.mod_eq_of_lt (by omega)]

/-- C8: calling the scheduler's next-task operation with zero registered
tasks signals a fatal precondition failure (modelled as `none`) rather than
returning any task reference. -/
theorem miros_C8_empty_get (s : SchedState) (h : s.addedTasks = 0) :
    Scheduler_GetTask s = none := by
  simp [Scheduler_GetTask, h]

/-- Witness for C8 at the freshly initialized state. -/
theorem miros_C8_empty_get_witness : Scheduler_GetTask freshSched = none :=
  miros_C8_empty_get freshSched rfl

/-- C7: adding a task to a queue already at capacity (`MIROS_NUM_TASKS` = 32)
is rejected with a fatal assertion before any mutation (so the halted state
equals the at-capacity state); a successful add appends the task at the tail
slot, increments the count, and changes nothing else (cursor and all other
slots are preserved). -/
theorem miros_C7_capacity (s : SchedState) (t : Nat) :
    (s.addedTasks = MIROS_NUM_TASKS → Scheduler_AddTask s t = none) ∧
    (s.addedTasks < MIROS_NUM_TASKS →
      ∃ s2, Scheduler_AddTask s t = some s2 ∧
        s2.taskQueue s.addedTasks = some t ∧
        (∀ i, i ≠ s.addedTasks → s2.taskQueue i = s.taskQueue i) ∧
        s2.addedTasks = s.addedTasks + 1 ∧
        s2.currentTaskIndex = s.currentTaskIndex) := by
  constructor
  · intro h
    simp [Scheduler_AddTask, h]
  · intro h
    refine ⟨{ taskQueue := fun i => if i = s.addedTasks then some t else s.taskQueue i,
              addedTasks := s.addedTasks + 1,
              currentTaskIndex := s.currentTaskIndex },
            by simp [Scheduler_AddTask, h], by simp, ?_, rfl, rfl⟩
    intro i hi
    simp [if_neg hi]

/-- A queue state holding exactly `MIROS_NUM_TASKS` registered tasks. -/
def fullSched : SchedState :=
  { taskQueue := fun i => if i < MIROS_NUM_TASKS then some (i + 1) else none,
    addedTasks := MIROS_NUM_TASKS,
    currentTaskIndex := 0 }

/-- Witness for C7: the 33rd add is rejected, and an add to the fresh queue
succeeds with count 1. -/
theorem miros_C7_capacity_witness :
    Scheduler_AddTask fullSched 99 = none ∧
    (Scheduler_AddTask freshSched 5).map (fun s => s.addedTasks) = some 1 := by
  constructor
  · exact (miros_C7_capacity fullSched 99).1 rfl
  · obtain ⟨s2, hs2, _, _, hcount, _⟩ := (miros_C7_capacity freshSched 5).2 (by decide)
    rw [hs2]
    simp [hcount]
    rfl

/-- C3 counterexample: a reachable state with a nonzero dispatch cursor
(initialize, add two tasks, get one) on which a further call of
`Scheduler_Initialize` leaves the cursor at 1, not 0: the C function resets
the queue slots and the count but never touches `Sched_CurrentTaskIndex`. -/
def c3Reach : SchedState :=
  let s1 := (Scheduler_AddTask freshSched 7).getD freshSched
  let s2 := (Scheduler_AddTask s1 8).getD s1
  ((Scheduler_GetTask s2).getD (none, s2)).2

/-- C3 is false as stated: from the reachable state `c3Reach` (whose cursor
is 1, with each construction step genuinely succeeding), re-initialization
leaves the cursor at 1 instead of clearing it to 0. -/
theorem miros_C3_cursor_not_cleared :
    (Scheduler_AddTask freshSched 7).isSome = true ∧
    (Scheduler_AddTask ((Scheduler_AddTask freshSched 7).getD freshSched) 8).isSome = true ∧
    (Scheduler_GetTask ((Scheduler_AddTask ((Scheduler_AddTask freshSched 7).getD freshSched) 8).getD
      ((Scheduler_AddTask freshSched 7).getD freshSched))).isSome = true ∧
    c3Reach.currentTaskIndex = 1 ∧
    ( Scheduler_Initialize c3Reach).currentTaskIndex = 1 ∧ (1 : Nat) ≠ 0 := by
  refine ⟨rfl, rfl, rfl, rfl, rfl, by decide⟩

/-- C3 amended: `Scheduler_Initialize` clears the task count to zero and
nulls every queue slot, and it is idempotent; but it leaves the dispatch
cursor unchanged (so the cursor is 0 after initialization only if it was
already 0, as at boot). -/
theorem miros_C3_initialize_amended (s : SchedState) (i : Nat) (h : i < MIROS_NUM_TASKS) :
    ( Scheduler_Initialize s).addedTasks = 0 ∧
    ( Scheduler_Initialize s).taskQueue i = none ∧
    ( Scheduler_Initialize s).currentTaskIndex = s.currentTaskIndex ∧
    Scheduler_Initialize ( Scheduler_Initialize s) = Scheduler_Initialize s := by
  refine ⟨rfl, by simp [ Scheduler_Initialize, h], rfl, ?_⟩
  show SchedState.mk _ _ _ = SchedState.mk _ _ _
  congr 1
  funext j
  by_cases hj : j < MIROS_NUM_TASKS <;> simp [ Scheduler_Initialize, hj]

/-- Witness for C3 amended, at the boot state and slot 3; initialization
from boot (cursor already 0) yields count 0 and cursor 0. -/
theorem miros_C3_initialize_amended_witness :
    freshSched.addedTasks = 0 ∧ freshSched.taskQueue 3 = none ∧
    freshSched.currentTaskIndex = 0 ∧
    Scheduler_Initialize freshSched = freshSched := by
  obtain ⟨h1, h2, h3, h4⟩ := miros_C3_initialize_amended bootState 3 (by decide)
  exact ⟨h1, h2, h3, h4⟩

/-- Registering a list of tasks succeeds when there is room, increments the
count by the list length, preserves the cursor and the slots below the old
count, and writes the new tasks in order at consecutive tail slots. -/
theorem addAll_spec (ts : List Nat) : ∀ (s : SchedState),
    s.addedTasks + ts.length ≤ MIROS_NUM_TASKS →
    ∃ s2, addAll s ts = some s2 ∧
      s2.addedTasks = s.addedTasks + ts.length ∧
      s2.currentTaskIndex = s.currentTaskIndex ∧
      (∀ i, i < s.addedTasks → s2.taskQueue i = s.taskQueue i) ∧
      (∀ j, j < ts.length → s2.taskQueue (s.addedTasks + j) = some (ts.getD j 0)) := by
  induction ts with
  | nil =>
    intro s _
    exact ⟨s, rfl, by simp, rfl, fun i _ => rfl, by simp⟩
  | cons t rest ih =>
    intro s h
    have hlen : s.addedTasks + (rest.length + 1) ≤ MIROS_NUM_TASKS := by
      simpa using h
    have hlt : s.addedTasks < MIROS_NUM_TASKS := by omega
    have hadd : Scheduler_AddTask s t =
        some { taskQueue := fun i => if i = s.addedTasks then some t else s.taskQueue i,
               addedTasks := s.addedTasks + 1,
               currentTaskIndex := s.currentTaskIndex } := by
      simp [Scheduler_AddTask, hlt]
    obtain ⟨s2, hrun, hcount, hcur, hbelow, hnew⟩ :=
      ih { taskQueue := fun i => if i = s.addedTasks then some t else s.taskQueue i,
           addedTasks := s.addedTasks + 1,
           currentTaskIndex := s.currentTaskIndex } (by simp; omega)
    refine ⟨s2, ?_, ?_, hcur, ?_, ?_⟩
    · simp [addAll, hadd]
      exact hrun
    · simp at hcount ⊢
      omega
    · intro i hi
      rw [hbelow i (by simp; omega)]
      simp [if_neg (by omega : ¬ i = s.addedTasks)]
    · intro j hj
      match j with
      | 0 =>
        have hx := hbelow s.addedTasks (by simp)
        simpa using hx
      | Nat.succ j2 =>
        have hj2 : j2 < rest.length := by
          simp at hj
          omega
        have hx := hnew j2 hj2
        rw [show s.addedTasks + (j2 + 1) = s.addedTasks + 1 + j2 by omega]
        rw [List.getD_cons_succ]
        exact hx

/-- Calling the next-task operation j times from a state whose cursor is in
range advances the cursor by j modulo the task count and changes nothing
else. -/
theorem iterGet_spec (j : Nat) : ∀ (s : SchedState),
    0 < s.addedTasks → s.currentTaskIndex < s.addedTasks →
    iterGet s j =
      some { s with currentTaskIndex := (s.currentTaskIndex + j) % s.addedTasks } := by
  induction j with
  | zero =>
    intro s h0 hc
    show some s = _
    rw [Nat.mod_eq_of_lt (by omega)]
    rfl
  | succ n ih =>
    intro s h0 hc
    show (Scheduler_GetTask s).bind _ = _
    rw [getTask_eq s h0, cursor_step_mod _ _ hc]
    have hlt : (s.currentTaskIndex + 1) % s.addedTasks < s.addedTasks :=
      Nat.mod_lt _ h0
    have hstep := ih { s with currentTaskIndex := (s.currentTaskIndex + 1) % s.addedTasks } h0 hlt
    show iterGet { s with currentTaskIndex := (s.currentTaskIndex + 1) % s.addedTasks } n = _
    rw [hstep]
    simp only [Nat.mod_add_mod]
    rw [show s.currentTaskIndex + 1 + n = s.currentTaskIndex + (n + 1) by omega]

/-- C1: after initializing the scheduler and registering the tasks `ts`
(1 ≤ N = length ts ≤ 32, all distinct) in order, the k-th call of
`Scheduler_GetTask` (k ≥ 1) succeeds and returns the ((k-1) mod N)-th
registered task, so the N registered tasks are handed out cyclically in
registration order forever. -/
theorem miros_C1_round_robin_cycle (ts : List Nat) (k : Nat)
    (h1 : 1 ≤ ts.length) (h2 : ts.length ≤ MIROS_NUM_TASKS)
    (hd : ts.Nodup) (hk : 1 ≤ k) :
    ∃ sN s2, addAll freshSched ts = some sN ∧ iterGet sN (k - 1) = some s2 ∧
      (Scheduler_GetTask s2).map Prod.fst =
        some (some (ts.getD ((k - 1) % ts.length) 0)) := by
  have hf0 : freshSched.addedTasks = 0 := rfl
  have hfc : freshSched.currentTaskIndex = 0 := rfl
  obtain ⟨sN, hadd, hcount, hcur, _, hslots⟩ :=
    addAll_spec ts freshSched (by omega)
  have hcount2 : sN.addedTasks = ts.length := by omega
  have hcur2 : sN.currentTaskIndex = 0 := by omega
  have h0 : 0 < sN.addedTasks := by omega
  refine ⟨sN, _, hadd, iterGet_spec (k - 1) sN h0 (by omega), ?_⟩
  rw [getTask_eq _ (by exact h0)]
  simp only [Option.map_some]
  show some (sN.taskQueue ((sN.currentTaskIndex + (k - 1)) % sN.addedTasks)) =
    some (some (ts.getD ((k - 1) % ts.length) 0))
  have hmodlt : (k - 1) % ts.length < ts.length := Nat.mod_lt _ (by omega)
  have hslot := hslots ((k - 1) % ts.length) hmodlt
  rw [hf0, Nat.zero_add] at hslot
  rw [hcur2, hcount2, Nat.zero_add, hslot]

/-- Witness for C1: with tasks [5, 6, 7] registered, the 4th call returns
task 5 (index (4-1) mod 3 = 0) again. -/
theorem miros_C1_round_robin_cycle_witness :
    ∃ sN s2, addAll freshSched [5, 6, 7] = some sN ∧ iterGet sN 3 = some s2 ∧
      (Scheduler_GetTask s2).map Prod.fst = some (some 5) :=
  miros_C1_round_robin_cycle [5, 6, 7] 4 (by decide) (by decide) (by decide) (by decide)

/-- The scheduler queue invariant: the cursor is 0 while the queue is empty,
the cursor indexes a valid slot (strictly below the count) whenever the
count is positive, and every slot below the count is non-null. -/
def SchedInv (s : SchedState) : Prop :=
  (s.addedTasks = 0 → s.currentTaskIndex = 0) ∧
  (0 < s.addedTasks → s.currentTaskIndex < s.addedTasks) ∧
  (∀ i, i < s.addedTasks → (s.taskQueue i).isSome = true)

/-- A successful `Scheduler_AddTask` preserves the queue invariant. -/
theorem schedInv_add (s : SchedState) (t : Nat) (s2 : SchedState)
    (hinv : SchedInv s) (h : Scheduler_AddTask s t = some s2) : SchedInv s2 := by
  obtain ⟨h1, h2, h3⟩ := hinv
  by_cases hlt : s.addedTasks < MIROS_NUM_TASKS
  · rw [Scheduler_AddTask, if_pos hlt, Option.some_inj] at h
    subst h
    refine ⟨by simp, ?_, ?_⟩
    · intro _
      show s.currentTaskIndex < s.addedTasks + 1
      rcases Nat.eq_zero_or_pos s.addedTasks with hz | hp
      · rw [h1 hz]
        omega
      · have := h2 hp
        omega
    · intro i hi
      show ((if i = s.addedTasks then some t else s.taskQueue i)).isSome = true
      by_cases he : i = s.addedTasks
      · simp [he]
      · rw [if_neg he]
        exact h3 i (by
          have : i < s.addedTasks + 1 := hi
          omega)
  · rw [Scheduler_AddTask, if_neg hlt] at h
    cases h

/-- A successful `Scheduler_GetTask` preserves the queue invariant. -/
theorem schedInv_get (s : SchedState) (r : Option Nat) (s2 : SchedState)
    (hinv : SchedInv s) (h : Scheduler_GetTask s = some (r, s2)) : SchedInv s2 := by
  obtain ⟨h1, h2, h3⟩ := hinv
  by_cases h0 : 0 < s.addedTasks
  · rw [getTask_eq s h0, Option.some_inj, Prod.mk.injEq] at h
    obtain ⟨-, h⟩ := h
    subst h
    have hc := h2 h0
    refine ⟨?_, ?_, h3⟩
    · intro hz
      have hz2 : s.addedTasks = 0 := hz
      omega
    intro _
    show (if s.currentTaskIndex + 1 = s.addedTasks then 0 else s.currentTaskIndex + 1) <
      s.addedTasks
    by_cases he : s.currentTaskIndex + 1 = s.addedTasks
    · rw [if_pos he]
      omega
    · rw [if_neg he]
      omega
  · rw [Scheduler_GetTask, if_neg h0] at h
    cases h

/-- Running any operation sequence from an invariant-satisfying state
preserves the queue invariant. -/
theorem schedInv_run (ops : List SchedOp) : ∀ (s s2 : SchedState),
    SchedInv s → runOps s ops = some s2 → SchedInv s2 := by
  induction ops with
  | nil =>
    intro s s2 hinv h
    rw [runOps, Option.some_inj] at h
    subst h
    exact hinv
  | cons op rest ih =>
    intro s s2 hinv h
    cases op with
    | add t =>
      rw [runOps] at h
      cases hadd : Scheduler_AddTask s t with
      | none => rw [hadd] at h; cases h
      | some s1 =>
        rw [hadd, Option.some_bind] at h
        exact ih s1 s2 (schedInv_add s t s1 hinv hadd) h
    | get =>
      rw [runOps] at h
      cases hget : Scheduler_GetTask s with
      | none => rw [hget] at h; cases h
      | some p =>
        rw [hget, Option.some_bind] at h
        exact ih p.2 s2 (schedInv_get s p.1 p.2 hinv (by rw [hget])) h

/-- The freshly initialized scheduler satisfies the queue invariant. -/
theorem schedInv_fresh : SchedInv freshSched := by
  have hz : freshSched.addedTasks = 0 := rfl
  exact ⟨fun _ => rfl, fun h => absurd h (by omega), fun i hi => absurd hi (by omega)⟩

/-- C10: starting from a fresh initialization, every successfully executed
sequence of add/get operations leaves the scheduler in a state where the
dispatch cursor is strictly below the count whenever the count is positive
and every slot below the count is non-null; hence `Scheduler_GetTask` in
such a state succeeds and returns the non-null pointer stored in the slot
at the cursor (a previously registered task). -/
theorem miros_C10_invariant (ops : List SchedOp) (s : SchedState)
    (h : runOps freshSched ops = some s) :
    SchedInv s ∧
    (0 < s.addedTasks →
      s.currentTaskIndex < s.addedTasks ∧
      (s.taskQueue s.currentTaskIndex).isSome = true ∧
      (Scheduler_GetTask s).map Prod.fst = some (s.taskQueue s.currentTaskIndex)) := by
  have hinv := schedInv_run ops freshSched s schedInv_fresh h
  refine ⟨hinv, ?_⟩
  intro h0
  obtain ⟨_, h2, h3⟩ := hinv
  refine ⟨h2 h0, h3 _ (h2 h0), ?_⟩
  rw [getTask_eq s h0]
  rfl

/-- Concrete operation sequence for the C10 witness. -/
def c10Ops : List SchedOp := [SchedOp.add 7, SchedOp.get, SchedOp.add 9, SchedOp.get]

/-- Witness for C10: the invariant holds after add 7, get, add 9, get. -/
theorem miros_C10_invariant_witness :
    SchedInv ((runOps freshSched c10Ops).getD bootState) ∧
    (Scheduler_GetTask ((runOps freshSched c10Ops).getD bootState)).map Prod.fst =
      some (some 9) := by
  have happ := miros_C10_invariant c10Ops ((runOps freshSched c10Ops).getD bootState) rfl
  refine ⟨happ.1, ?_⟩
  have h2 := (happ.2 (by decide)).2.2
  rw [h2]
  rfl

/-- Byte-addressed memory holding one 32-bit word per (4-aligned) address. -/
abbrev Mem := Nat → Nat

/-- Required stack alignment in bytes, `MIROS_STACK_ALIGNMENT` in miros.c. -/
def MIROS_STACK_ALIGNMENT : Nat := 8

/-- Default PSR value pre-loaded in a synthetic frame, miros.c line 59. -/
def MIROS_DEFAULT_PSR : Nat := 0x21000000

/-- Effect of ANDing a `uint32_t` with `MIROS_STACK_ALIGN_MASK`
(`~(MIROS_STACK_ALIGNMENT - 1)` = 0xFFFFFFF8): clearing the low three bits
rounds the 32-bit value down to a multiple of 8. -/
def maskAlign (x : Nat) : Nat :=
  x % 2 ^ 32 - x % 2 ^ 32 % MIROS_STACK_ALIGNMENT

/-- The task record `Task_t` of miros.h: `stack` is the byte address of the
stack region's base, `stack_size` its word count, `stack_ptr` the saved
context pointer (byte address), `handle` the entry-point address. -/
structure Task_t where
  stack : Nat
  stack_size : Nat
  stack_ptr : Nat
  handle : Nat

/-- Embedding of `Miros_AlignStack` (miros.c, lines 85-105): the top of the
region (`stack + stack_size` words) is rounded down to the 8-byte alignment,
the base is rounded up (`((stack - 1) & mask) + 8`), the usable word count
is the pointer difference, and `stack_ptr` is set to the aligned top. -/
def Miros_AlignStack (task : Task_t) : Task_t :=
  { task with
      stack := maskAlign (task.stack - 1) + MIROS_STACK_ALIGNMENT,
      stack_size :=
        (maskAlign (task.stack + 4 * task.stack_size)
          - (maskAlign (task.stack - 1) + MIROS_STACK_ALIGNMENT)) / 4,
      stack_ptr := maskAlign (task.stack + 4 * task.stack_size) }

/-- Write a 32-bit word at a byte address. -/
def store (m : Mem) (a v : Nat) : Mem :=
  fun x => if x = a then v % 2 ^ 32 else m x

/-- The sixteen synthetic-frame stores of `Miros_PrepareStack` (miros.c,
lines 124-140): starting from `stack_ptr`, push (pre-decrement by one word)
PSR, PC = handle, LR and the caller-saved sentinels, then the manually-saved
block whose R7 slot receives its own byte address plus one
(`(uint32_t) sp + 1` in the source). -/
def prepMem (task : Task_t) (mem : Mem) : Mem :=
  store (store (store (store (store (store (store (store
    (store (store (store (store (store (store (store (store mem
      (task.stack_ptr - 4) MIROS_DEFAULT_PSR)
      (task.stack_ptr - 8) task.handle)
      (task.stack_ptr - 12) 0x11111111)
      (task.stack_ptr - 16) 0x12011012)
      (task.stack_ptr - 20) 0x03011030)
      (task.stack_ptr - 24) 0x02011020)
      (task.stack_ptr - 28) 0x01011010)
      (task.stack_ptr - 32) 0xDEADB00F)
      (task.stack_ptr - 36) (task.stack_ptr - 36 + 1))
      (task.stack_ptr - 40) 0xDEADB44F)
      (task.stack_ptr - 44) 0xDEADB55F)
      (task.stack_ptr - 48) 0xDEADB66F)
      (task.stack_ptr - 52) 0xDEADB88F)
      (task.stack_ptr - 56) 0xDEADB99F)
      (task.stack_ptr - 60) 0xDEADBAAF)
      (task.stack_ptr - 64) 0xDEADBBBF

/-- The poison fill of `Miros_PrepareStack` (miros.c, lines 143-145) on top
of the sixteen frame stores: the loop writes 0xDEADBEEF at descending word
steps from the final stack pointer while the write cursor is above the
region base, covering exactly the addresses a with a < stack_ptr - 64,
a + 4 > stack, a congruent to the final pointer modulo one word. -/
def prepFill (task : Task_t) (mem : Mem) : Mem :=
  fun a =>
    if a < task.stack_ptr - 64 ∧ task.stack < a + 4 ∧
       (task.stack_ptr - 64 - a) % 4 = 0 then 0xDEADBEEF
    else prepMem task mem a

/-- Embedding of `Miros_PrepareStack` (miros.c, lines 118-149): the sixteen
frame stores, then the poison fill, and the task record with its saved
context pointer set 16 words below the aligned top. -/
def Miros_PrepareStack (task : Task_t) (mem : Mem) : Task_t × Mem :=
  ({ task with stack_ptr := task.stack_ptr - 64 }, prepFill task mem)

/-- Embedding of the task-preparation part of `MIROS_TaskInitialize`
(miros.c, lines 169-181): assign the record's fields, align the stack, then
build the synthetic frame.  The C function then passes the task's pointer to
`Scheduler_AddTask`; note that no stack-size check exists on this path. -/
def MIROS_TaskInitialize_prep (handle stack stack_size : Nat) (mem : Mem) :
    Task_t × Mem :=
  Miros_PrepareStack
    (Miros_AlignStack
      { stack := stack, stack_size := stack_size, stack_ptr := 0, handle := handle })
    mem

/-- Test-harness simulation of the restore half of the context-switch
protocol: the stack-pointer register is loaded from the task's saved
`stack_ptr`; the PendSV pop sequence consumes the 8 manually-saved words
(R11 R10 R9 R8 R6 R5 R4 and the R7 frame slot), and the hardware exception
return then pops R0-R3, R12, LR, PC, PSR.  The restored program counter is
therefore the word 56 bytes above the saved pointer, and the final stack
pointer is 64 bytes above it (the frame top). -/
def simulateRestore (task : Task_t) (mem : Mem) : Nat × Nat :=
  (mem (task.stack_ptr + 56), task.stack_ptr + 64)

/-- C5: for a word-aligned, nonzero, non-overflowing stack region of at
least the minimum frame size (16 words), alignment produces a base and a
top that are multiples of 8 bytes with base ≤ top, loses at most
alignment − 1 words at each boundary, and the input word count equals the
usable count plus the two boundary losses. -/
theorem miros_C5_alignment (t : Task_t)
    (hb4 : t.stack % 4 = 0) (hb0 : 0 < t.stack) (hsz : 16 ≤ t.stack_size)
    (hov : t.stack + 4 * t.stack_size < 2 ^ 32) :
    (Miros_AlignStack t).stack % MIROS_STACK_ALIGNMENT = 0 ∧
    (Miros_AlignStack t).stack_ptr % MIROS_STACK_ALIGNMENT = 0 ∧
    (Miros_AlignStack t).stack ≤ (Miros_AlignStack t).stack_ptr ∧
    ((Miros_AlignStack t).stack - t.stack) / 4 ≤ MIROS_STACK_ALIGNMENT - 1 ∧
    (t.stack + 4 * t.stack_size - (Miros_AlignStack t).stack_ptr) / 4
      ≤ MIROS_STACK_ALIGNMENT - 1 ∧
    t.stack_size =
      (Miros_AlignStack t).stack_size
      + ((Miros_AlignStack t).stack - t.stack) / 4
      + (t.stack + 4 * t.stack_size - (Miros_AlignStack t).stack_ptr) / 4 := by
  simp only [Miros_AlignStack, maskAlign, MIROS_STACK_ALIGNMENT]
  omega

/-- Concrete task record for the C5 witness: a 40-word region based at byte
address 0x20000004. -/
def c5Task : Task_t :=
  { stack := 0x20000004, stack_size := 40, stack_ptr := 0, handle := 0 }

/-- Witness for C5 at the concrete region `c5Task`. -/
theorem miros_C5_alignment_witness :
    (Miros_AlignStack c5Task).stack % MIROS_STACK_ALIGNMENT = 0 ∧
    (Miros_AlignStack c5Task).stack_ptr % MIROS_STACK_ALIGNMENT = 0 ∧
    (Miros_AlignStack c5Task).stack ≤ (Miros_AlignStack c5Task).stack_ptr ∧
    ((Miros_AlignStack c5Task).stack - c5Task.stack) / 4
      ≤ MIROS_STACK_ALIGNMENT - 1 ∧
    (c5Task.stack + 4 * c5Task.stack_size - (Miros_AlignStack c5Task).stack_ptr) / 4
      ≤ MIROS_STACK_ALIGNMENT - 1 ∧
    c5Task.stack_size =
      (Miros_AlignStack c5Task).stack_size
      + ((Miros_AlignStack c5Task).stack - c5Task.stack) / 4
      + (c5Task.stack + 4 * c5Task.stack_size - (Miros_AlignStack c5Task).stack_ptr) / 4 :=
  miros_C5_alignment c5Task (by norm_num [c5Task]) (by norm_num [c5Task])
    (by norm_num [c5Task]) (by norm_num [c5Task])

/-- Reading the sixteen-store frame memory: the definitional unfolding of
`prepMem` as a chain of address tests, outermost (deepest) store first. -/
theorem prepMem_read (t : Task_t) (mem : Mem) (x : Nat) :
    prepMem t mem x =
      if x = t.stack_ptr - 64 then 0xDEADBBBF % 2 ^ 32
      else if x = t.stack_ptr - 60 then 0xDEADBAAF % 2 ^ 32
      else if x = t.stack_ptr - 56 then 0xDEADB99F % 2 ^ 32
      else if x = t.stack_ptr - 52 then 0xDEADB88F % 2 ^ 32
      else if x = t.stack_ptr - 48 then 0xDEADB66F % 2 ^ 32
      else if x = t.stack_ptr - 44 then 0xDEADB55F % 2 ^ 32
      else if x = t.stack_ptr - 40 then 0xDEADB44F % 2 ^ 32
      else if x = t.stack_ptr - 36 then (t.stack_ptr - 36 + 1) % 2 ^ 32
      else if x = t.stack_ptr - 32 then 0xDEADB00F % 2 ^ 32
      else if x = t.stack_ptr - 28 then 0x01011010 % 2 ^ 32
      else if x = t.stack_ptr - 24 then 0x02011020 % 2 ^ 32
      else if x = t.stack_ptr - 20 then 0x03011030 % 2 ^ 32
      else if x = t.stack_ptr - 16 then 0x12011012 % 2 ^ 32
      else if x = t.stack_ptr - 12 then 0x11111111 % 2 ^ 32
      else if x = t.stack_ptr - 8 then t.handle % 2 ^ 32
      else if x = t.stack_ptr - 4 then MIROS_DEFAULT_PSR % 2 ^ 32
      else mem x := rfl

/-- Reading the frame memory after the poison fill: the definitional
unfolding of `prepFill`. -/
theorem prepFill_apply (t : Task_t) (mem : Mem) (x : Nat) :
    prepFill t mem x =
      if x < t.stack_ptr - 64 ∧ t.stack < x + 4 ∧
         (t.stack_ptr - 64 - x) % 4 = 0 then 0xDEADBEEF
      else prepMem t mem x := rfl


/-- C2 amended: for a task record with at least 16 usable words below the
aligned top (and a 32-bit entry address), `Miros_PrepareStack` writes at the
aligned top, in hardware exception-entry push order, PSR = 0x21000000,
PC = the registered entry point, a sentinel LR and sentinel caller-saved
registers (R12, R3, R2, R1, R0), followed immediately below by the sentinel
callee-saved block (R7 anchor, R4, R5, R6, R8, R9, R10, R11); the frame
totals 8 automatically-saved plus 8 manually-saved registers = 16 words
(not 17), the recorded saved context pointer is the frame top minus 16
words, and simulating the restore half of the switch protocol yields
PC = the entry point and a final stack pointer at the frame top. -/
theorem miros_C2_synthetic_frame (t : Task_t) (mem : Mem)
    (hroom : t.stack + 64 ≤ t.stack_ptr) (hh : t.handle < 2 ^ 32) :
    (Miros_PrepareStack t mem).2 (t.stack_ptr - 4) = MIROS_DEFAULT_PSR ∧
    (Miros_PrepareStack t mem).2 (t.stack_ptr - 8) = t.handle ∧
    (Miros_PrepareStack t mem).2 (t.stack_ptr - 12) = 0x11111111 ∧
    (Miros_PrepareStack t mem).2 (t.stack_ptr - 16) = 0x12011012 ∧
    (Miros_PrepareStack t mem).2 (t.stack_ptr - 20) = 0x03011030 ∧
    (Miros_PrepareStack t mem).2 (t.stack_ptr - 24) = 0x02011020 ∧
    (Miros_PrepareStack t mem).2 (t.stack_ptr - 28) = 0x01011010 ∧
    (Miros_PrepareStack t mem).2 (t.stack_ptr - 32) = 0xDEADB00F ∧
    (Miros_PrepareStack t mem).2 (t.stack_ptr - 36) = (t.stack_ptr - 36 + 1) % 2 ^ 32 ∧
    (Miros_PrepareStack t mem).2 (t.stack_ptr - 40) = 0xDEADB44F ∧
    (Miros_PrepareStack t mem).2 (t.stack_ptr - 44) = 0xDEADB55F ∧
    (Miros_PrepareStack t mem).2 (t.stack_ptr - 48) = 0xDEADB66F ∧
    (Miros_PrepareStack t mem).2 (t.stack_ptr - 52) = 0xDEADB88F ∧
    (Miros_PrepareStack t mem).2 (t.stack_ptr - 56) = 0xDEADB99F ∧
    (Miros_PrepareStack t mem).2 (t.stack_ptr - 60) = 0xDEADBAAF ∧
    (Miros_PrepareStack t mem).2 (t.stack_ptr - 64) = 0xDEADBBBF ∧
    (Miros_PrepareStack t mem).1.stack_ptr = t.stack_ptr - 16 * 4 ∧
    simulateRestore (Miros_PrepareStack t mem).1 (Miros_PrepareStack t mem).2 =
      (t.handle, t.stack_ptr) := by
  have h64le : 64 ≤ t.stack_ptr := by omega
  have hsnd : (Miros_PrepareStack t mem).2 = prepFill t mem := rfl
  have h4 : (Miros_PrepareStack t mem).2 (t.stack_ptr - 4) = MIROS_DEFAULT_PSR := by
    rw [hsnd, prepFill_apply, prepMem_read, if_neg (by omega),
        if_neg (fun hx => by omega), if_neg (by intro hx; omega), if_neg (by omega),
        if_neg (fun hx => by omega), if_neg (by intro hx; omega), if_neg (by omega),
        if_neg (fun hx => by omega), if_neg (by intro hx; omega), if_neg (by omega),
        if_neg (fun hx => by omega), if_neg (by intro hx; omega), if_neg (by omega),
        if_neg (fun hx => by omega), if_neg (by intro hx; omega), if_neg (by omega),
        if_pos rfl]
    rw [show MIROS_DEFAULT_PSR = 0x21000000 from rfl]
    omega
  have h8 : (Miros_PrepareStack t mem).2 (t.stack_ptr - 8) = t.handle := by
    rw [hsnd, prepFill_apply, prepMem_read, if_neg (by omega),
        if_neg (fun hx => by omega), if_neg (by intro hx; omega), if_neg (by omega),
        if_neg (fun hx => by omega), if_neg (by intro hx; omega), if_neg (by omega),
        if_neg (fun hx => by omega), if_neg (by intro hx; omega), if_neg (by omega),
        if_neg (fun hx => by omega), if_neg (by intro hx; omega), if_neg (by omega),
        if_neg (fun hx => by omega), if_neg (by intro hx; omega), if_pos rfl]
    omega
  have h12 : (Miros_PrepareStack t mem).2 (t.stack_ptr - 12) = 0x11111111 := by
    rw [hsnd, prepFill_apply, prepMem_read, if_neg (by omega),
        if_neg (fun hx => by omega), if_neg (by intro hx; omega), if_neg (by omega),
        if_neg (fun hx => by omega), if_neg (by intro hx; omega), if_neg (by omega),
        if_neg (fun hx => by omega), if_neg (by intro hx; omega), if_neg (by omega),
        if_neg (fun hx => by omega), if_neg (by intro hx; omega), if_neg (by omega),
        if_neg (fun hx => by omega), if_pos rfl]
    omega
  have h16 : (Miros_PrepareStack t mem).2 (t.stack_ptr - 16) = 0x12011012 := by
    rw [hsnd, prepFill_apply, prepMem_read, if_neg (by omega),
        if_neg (fun hx => by omega), if_neg (by intro hx; omega), if_neg (by omega),
        if_neg (fun hx => by omega), if_neg (by intro hx; omega), if_neg (by omega),
        if_neg (fun hx => by omega), if_neg (by intro hx; omega), if_neg (by omega),
        if_neg (fun hx => by omega), if_neg (by intro hx; omega), if_neg (by omega),
        if_pos rfl]
    omega
  have h20 : (Miros_PrepareStack t mem).2 (t.stack_ptr - 20) = 0x03011030 := by
    rw [hsnd, prepFill_apply, prepMem_read, if_neg (by omega),
        if_neg (fun hx => by omega), if_neg (by intro hx; omega), if_neg (by omega),
        if_neg (fun hx => by omega), if_neg (by intro hx; omega), if_neg (by omega),
        if_neg (fun hx => by omega), if_neg (by intro hx; omega), if_neg (by omega),
        if_neg (fun hx => by omega), if_neg (by intro hx; omega), if_pos rfl]
    omega
  have h24 : (Miros_PrepareStack t mem).2 (t.stack_ptr - 24) = 0x02011020 := by
    rw [hsnd, prepFill_apply, prepMem_read, if_neg (by omega),
        if_neg (fun hx => by omega), if_neg (by intro hx; omega), if_neg (by omega),
        if_neg (fun hx => by omega), if_neg (by intro hx; omega), if_neg (by omega),
        if_neg (fun hx => by omega), if_neg (by intro hx; omega), if_neg (by omega),
        if_neg (fun hx => by omega), if_pos rfl]
    omega
  have h28 : (Miros_PrepareStack t mem).2 (t.stack_ptr - 28) = 0x01011010 := by
    rw [hsnd, prepFill_apply, prepMem_read, if_neg (by omega),
        if_neg (fun hx => by omega), if_neg (by intro hx; omega), if_neg (by omega),
        if_neg (fun hx => by omega), if_neg (by intro hx; omega), if_neg (by omega),
        if_neg (fun hx => by omega), if_neg (by intro hx; omega), if_neg (by omega),
        if_pos rfl]
    omega
  have h32 : (Miros_PrepareStack t mem).2 (t.stack_ptr - 32) = 0xDEADB00F := by
    rw [hsnd, prepFill_apply, prepMem_read, if_neg (by omega),
        if_neg (fun hx => by omega), if_neg (by intro hx; omega), if_neg (by omega),
        if_neg (fun hx => by omega), if_neg (by intro hx; omega), if_neg (by omega),
        if_neg (fun hx => by omega), if_neg (by intro hx; omega), if_pos rfl]
    omega
  have h36 : (Miros_PrepareStack t mem).2 (t.stack_ptr - 36) = (t.stack_ptr - 36 + 1) % 2 ^ 32 := by
    rw [hsnd, prepFill_apply, prepMem_read, if_neg (by omega),
        if_neg (fun hx => by omega), if_neg (by intro hx; omega), if_neg (by omega),
        if_neg (fun hx => by omega), if_neg (by intro hx; omega), if_neg (by omega),
        if_neg (fun hx => by omega), if_pos rfl]
  have h40 : (Miros_PrepareStack t mem).2 (t.stack_ptr - 40) = 0xDEADB44F := by
    rw [hsnd, prepFill_apply, prepMem_read, if_neg (by omega),
        if_neg (fun hx => by omega), if_neg (by intro hx; omega), if_neg (by omega),
        if_neg (fun hx => by omega), if_neg (by intro hx; omega), if_neg (by omega),
        if_pos rfl]
    omega
  have h44 : (Miros_PrepareStack t mem).2 (t.stack_ptr - 44) = 0xDEADB55F := by
    rw [hsnd, prepFill_apply, prepMem_read, if_neg (by omega),
        if_neg (fun hx => by omega), if_neg (by intro hx; omega), if_neg (by omega),
        if_neg (fun hx => by omega), if_neg (by intro hx; omega), if_pos rfl]
    omega
  have h48 : (Miros_PrepareStack t mem).2 (t.stack_ptr - 48) = 0xDEADB66F := by
    rw [hsnd, prepFill_apply, prepMem_read, if_neg (by omega),
        if_neg (fun hx => by omega), if_neg (by intro hx; omega), if_neg (by omega),
        if_neg (fun hx => by omega), if_pos rfl]
    omega
  have h52 : (Miros_PrepareStack t mem).2 (t.stack_ptr - 52) = 0xDEADB88F := by
    rw [hsnd, prepFill_apply, prepMem_read, if_neg (by omega),
        if_neg (fun hx => by omega), if_neg (by intro hx; omega), if_neg (by omega),
        if_pos rfl]
    omega
  have h56 : (Miros_PrepareStack t mem).2 (t.stack_ptr - 56) = 0xDEADB99F := by
    rw [hsnd, prepFill_apply, prepMem_read, if_neg (by omega),
        if_neg (fun hx => by omega), if_neg (by intro hx; omega), if_pos rfl]
    omega
  have h60 : (Miros_PrepareStack t mem).2 (t.stack_ptr - 60) = 0xDEADBAAF := by
    rw [hsnd, prepFill_apply, prepMem_read, if_neg (by omega),
        if_neg (fun hx => by omega), if_pos rfl]
    omega
  have h64 : (Miros_PrepareStack t mem).2 (t.stack_ptr - 64) = 0xDEADBBBF := by
    rw [hsnd, prepFill_apply, prepMem_read, if_neg (by omega), if_pos rfl]
    omega
  refine ⟨h4, h8, h12, h16, h20, h24, h28, h32, h36, h40, h44, h48, h52, h56, h60, h64,
    by show t.stack_ptr - 64 = t.stack_ptr - 16 * 4; omega, ?_⟩
  show ((Miros_PrepareStack t mem).2 (t.stack_ptr - 64 + 56), t.stack_ptr - 64 + 64) =
    (t.handle, t.stack_ptr)
  rw [show t.stack_ptr - 64 + 56 = t.stack_ptr - 8 by omega, h8,
      show t.stack_ptr - 64 + 64 = t.stack_ptr by omega]

/-- All-zero memory used as the initial heap for concrete frame builds. -/
def c0Mem : Mem := fun _ => 0

/-- Concrete aligned task record for the C2 counterexample: 64-word region
at 0x20000000 with aligned top 0x20000100. -/
def c2cexTask : Task_t :=
  { stack := 0x20000000, stack_size := 64, stack_ptr := 0x20000100,
    handle := 0x08000101 }

/-- C2 counterexample to the 17-word figure: the frame built by
`Miros_PrepareStack` is 16 words, so the recorded saved context pointer is
the frame top minus 16 words and differs from "frame top minus 17 words". -/
theorem miros_C2_frame_not_17_words :
    (Miros_PrepareStack c2cexTask c0Mem).1.stack_ptr
      = c2cexTask.stack_ptr - 16 * 4 ∧
    (Miros_PrepareStack c2cexTask c0Mem).1.stack_ptr
      ≠ c2cexTask.stack_ptr - 17 * 4 := by
  decide

/-- Concrete aligned task record for the C2 witness: aligned top at
0x200002F8, 62 usable words. -/
def c2wTask : Task_t :=
  { stack := 0x20000200, stack_size := 62, stack_ptr := 0x200002F8,
    handle := 0x08000215 }

/-- Witness for C2 amended at the concrete record `c2wTask`: the PC slot
holds the entry point and the simulated restore yields it together with the
frame-top stack pointer. -/
theorem miros_C2_synthetic_frame_witness :
    (Miros_PrepareStack c2wTask c0Mem).2 (c2wTask.stack_ptr - 8)
      = c2wTask.handle ∧
    simulateRestore (Miros_PrepareStack c2wTask c0Mem).1
      (Miros_PrepareStack c2wTask c0Mem).2 = (c2wTask.handle, c2wTask.stack_ptr) := by
  obtain ⟨h4, h8, h12, h16, h20, h24, h28, h32, h36, h40, h44, h48, h52, h56,
      h60, h64, h17, h18⟩ :=
    miros_C2_synthetic_frame c2wTask c0Mem (by decide) (by decide)
  exact ⟨h8, h18⟩

/-- Concrete aligned task record for C4: 64-word region at 0x20000000,
aligned top 0x20000100, so the R7 slot sits at byte address 0x200000DC. -/
def c4Task : Task_t :=
  { stack := 0x20000000, stack_size := 64, stack_ptr := 0x20000100, handle := 0 }

/-- C4 counterexample: the R7 anchor slot at 0x200000DC receives its own
byte address plus ONE (the source computes `(uint32_t) sp + 1`), which
differs from its address plus one word (4 bytes) as the claim states. -/
theorem miros_C4_anchor_plus_one_cex :
    (Miros_PrepareStack c4Task c0Mem).2 0x200000DC = 0x200000DC + 1 ∧
    (0x200000DC + 1 : Nat) ≠ 0x200000DC + 4 := by
  decide

/-- C4 amended: in the manually-saved block written by `Miros_PrepareStack`,
the frame-pointer slot (R7, 36 bytes below the aligned top) is written with
the slot's own byte address plus one byte, truncated to 32 bits — not plus
one word. -/
theorem miros_C4_anchor_slot (t : Task_t) (mem : Mem)
    (h64le : 64 ≤ t.stack_ptr) :
    (Miros_PrepareStack t mem).2 (t.stack_ptr - 36)
      = (t.stack_ptr - 36 + 1) % 2 ^ 32 := by
  have hsnd : (Miros_PrepareStack t mem).2 = prepFill t mem := rfl
  rw [hsnd, prepFill_apply, prepMem_read,
      if_neg (by omega), if_neg (fun hx => by omega), if_neg (by intro hx; omega),
      if_neg (by omega), if_neg (fun hx => by omega), if_neg (by intro hx; omega),
      if_neg (by omega), if_neg (fun hx => by omega), if_pos rfl]

/-- Witness for C4 amended at the concrete record `c4Task`. -/
theorem miros_C4_anchor_slot_witness :
    (Miros_PrepareStack c4Task c0Mem).2 (c4Task.stack_ptr - 36)
      = (c4Task.stack_ptr - 36 + 1) % 2 ^ 32 :=
  miros_C4_anchor_slot c4Task c0Mem (by decide)

/-- C6: at the concrete failing input (a 4-word stack region at 0x20000010,
far too small for the 16-word synthetic frame), task preparation runs to
completion with no fatal assertion: the aligned base is 0x20000010 but the
recorded saved context pointer ends up at 0x1FFFFFE0, below the region, and
frame words (here the R3 sentinel at 0x2000000C) are written outside the
caller's region, which previously held 0. -/
theorem miros_C6_undersized_stack_no_assert :
    (MIROS_TaskInitialize_prep 0x08000200 0x20000010 4 c0Mem).1.stack
      = 0x20000010 ∧
    (MIROS_TaskInitialize_prep 0x08000200 0x20000010 4 c0Mem).1.stack_ptr
      = 0x1FFFFFE0 ∧
    (0x1FFFFFE0 : Nat) < 0x20000010 ∧
    (MIROS_TaskInitialize_prep 0x08000200 0x20000010 4 c0Mem).2 0x2000000C
      = 0x03011030 ∧
    c0Mem 0x2000000C = 0 := by
  decide

/-- Kernel scheduling-handoff state of miros.c: the scheduler queue, the
`Miros_RunningTask` and `Miros_NextTask` references (task pointers, `none`
= `NULL`), and the PendSV pending bit set by `MIROS_PEND_SVCall`. -/
structure KernelState where
  sched : SchedState
  runningTask : Option Nat
  nextTask : Option Nat
  pendSV : Bool

/-- Embedding of `MIROS_Sched` (miros.c, lines 183-188), the tick path:
store the queue's next task into `Miros_NextTask` and set the PendSV
interrupt pending (it is not invoked synchronously).  A fatal assertion
inside `Scheduler_GetTask` propagates; `Miros_RunningTask` is never
touched. -/
def MIROS_Sched (k : KernelState) : Option KernelState :=
  (Scheduler_GetTask k.sched).map (fun p =>
    { k with sched := p.2, nextTask := p.1, pendSV := true })

/-- Reference semantics of `PendSV_Handler` (miros.c, lines 194-269)
restricted to the scheduling-handoff references: when `Miros_NextTask` is
non-NULL it is copied into `Miros_RunningTask`; `Miros_NextTask` itself is
never written by the handler.  When it is NULL nothing happens.  The inline
assembly that saves and restores the callee-saved registers and swaps the
stack pointer is hardware state outside this embedding. -/
def PendSV_Handler_refs (k : KernelState) : KernelState :=
  if k.nextTask.isSome then { k with runningTask := k.nextTask } else k

/-- Concrete kernel state with a pending next task for the C9 counterexample. -/
def c9State : KernelState :=
  { sched := fullSched, runningTask := some 1, nextTask := some 5, pendSV := true }

/-- C9 counterexample: after the switch handler consumes the "next"
reference (the next task becomes the running task), the "next" reference is
NOT cleared — `PendSV_Handler` never writes `Miros_NextTask`, so it still
holds the same task, not `NULL`. -/
theorem miros_C9_next_not_cleared :
    (PendSV_Handler_refs c9State).runningTask = some 5 ∧
    (PendSV_Handler_refs c9State).nextTask = some 5 ∧
    some 5 ≠ (none : Option Nat) := by
  refine ⟨rfl, rfl, by decide⟩

/-- C9 amended: the tick path (`MIROS_Sched`) writes the queue's next task
into the pending "next" reference and only pends the switch interrupt,
leaving the "running" reference unchanged; the switch handler, when a
"next" reference is set, copies it into "running" but leaves the "next"
reference itself set (it is not cleared); when no "next" reference is set
the handler changes nothing. -/
theorem miros_C9_handoff (k : KernelState) :
    (∀ k2, MIROS_Sched k = some k2 →
      k2.runningTask = k.runningTask ∧ k2.pendSV = true ∧
      (Scheduler_GetTask k.sched).map Prod.fst = some k2.nextTask) ∧
    (k.nextTask = none → PendSV_Handler_refs k = k) ∧
    (∀ t, k.nextTask = some t →
      (PendSV_Handler_refs k).runningTask = some t ∧
      (PendSV_Handler_refs k).nextTask = some t) := by
  refine ⟨?_, ?_, ?_⟩
  · intro k2 h
    cases hget : Scheduler_GetTask k.sched with
    | none =>
      rw [MIROS_Sched, hget] at h
      cases h
    | some p =>
      rw [MIROS_Sched, hget, Option.map_some', Option.some_inj] at h
      subst h
      exact ⟨rfl, rfl, rfl⟩
  · intro h
    rw [PendSV_Handler_refs, h]
    rfl
  · intro t h
    rw [PendSV_Handler_refs, h]
    exact ⟨rfl, rfl⟩

/-- Concrete kernel state with no pending next task for the C9 witness. -/
def c9Idle : KernelState :=
  { sched := fullSched, runningTask := some 2, nextTask := none, pendSV := false }

/-- Witness for C9 amended: at `c9State` the handler installs task 5 as
running and leaves "next" set; at `c9Idle` (no next reference) the handler
is the identity; the tick path from `c9State` pends the switch and leaves
the running reference unchanged. -/
theorem miros_C9_handoff_witness :
    (PendSV_Handler_refs c9State).runningTask = some 5 ∧
    (PendSV_Handler_refs c9State).nextTask = some 5 ∧
    PendSV_Handler_refs c9Idle = c9Idle ∧
    ((MIROS_Sched c9State).getD c9State).runningTask = some 1 ∧
    ((MIROS_Sched c9State).getD c9State).pendSV = true := by
  have h5 := (miros_C9_handoff c9State).2.2 5 rfl
  have hid := (miros_C9_handoff c9State).1 ((MIROS_Sched c9State).getD c9State) rfl
  have hnone := (miros_C9_handoff c9Idle).2.1 rfl
  exact ⟨h5.1, h5.2, hnone, hid.1, hid.2.1⟩
